import Mathlib

/-!
Verification of the trusted-worktop analyzer of the radix-engine-toolkit
repository.

The instruction dispatcher is embedded from
`src/crates/radix-engine-toolkit/src/transaction_types/traverser/auxiliary/trusted_worktop/mod.rs`
(the `ManifestSummaryCallback::on_instruction` implementation for
`TrustedWorktop`).  The tracker submodules referenced by that file
(`worktop_content_tracker.rs`, `bucket_tracker.rs`,
`handler_method_calls.rs`, `handler_function_calls.rs`) are not present in
the source tree; their definitions below are modelled from the
specification (sections 3, 4.1, 4.2, 4.3 and 4.4 of the design document)
and carry a doc comment saying so.

Machine values are abstracted as follows: resource addresses and
non-fungible local ids are opaque decoded values, modelled as `Nat`;
decimal amounts are modelled as `Int`; id sets (`IndexSet` in the source)
are modelled as `Finset Nat`; bucket identifiers (`ManifestBucket`) are
modelled as `Nat`.
-/

/-- Embeds `radix_engine::...::ResourceSpecifier`: a quantity of one
resource, either a decimal amount (fungible) or a set of discrete
non-fungible local ids, tagged by its resource address. -/
inductive ResourceSpecifier where
  | Amount (resource_address : Nat) (amount : Int)
  | Ids (resource_address : Nat) (ids : Finset Nat)
deriving DecidableEq

/-- The resource address a specifier is tagged with. -/
def ResourceSpecifier.address : ResourceSpecifier → Nat
  | .Amount a _ => a
  | .Ids a _ => a

/-- True when the specifier is amount-typed (fungible). -/
def ResourceSpecifier.isAmount : ResourceSpecifier → Bool
  | .Amount _ _ => true
  | .Ids _ _ => false

/-- True when the specifier is id-typed (non-fungible). -/
def ResourceSpecifier.isIds : ResourceSpecifier → Bool
  | .Amount _ _ => false
  | .Ids _ _ => true

/-- Modelled from the spec: section 4.3 resource specifier arithmetic.
Merging two amount specifiers for the same resource address sums the
amounts; merging two id-set specifiers unions the id sets; merging
specifiers of different resource addresses or incompatible tags is
invalid and is rejected (`none`). -/
def mergeSpecifiers : ResourceSpecifier → ResourceSpecifier → Option ResourceSpecifier
  | .Amount a q, .Amount b r => if a = b then some (.Amount a (q + r)) else none
  | .Ids a s, .Ids b t => if a = b then some (.Ids a (s ∪ t)) else none
  | _, _ => none

/-- Merges a list of specifier entries into a single specifier; `none`
for an empty list or when any two entries are unmergeable. -/
def mergeEntries : List ResourceSpecifier → Option ResourceSpecifier
  | [] => none
  | e :: rest => List.foldlM mergeSpecifiers e rest

/-- The entries of a worktop pool multiset that carry the given
resource address. -/
def entriesFor (pool : List ResourceSpecifier) (a : Nat) : List ResourceSpecifier :=
  pool.filter (fun e => e.address == a)

/-- Sum of the amounts of a list of (amount-typed) entries; id-typed
entries contribute zero. -/
def amountSum (es : List ResourceSpecifier) : Int :=
  (es.map (fun e => match e with | .Amount _ q => q | .Ids _ _ => 0)).sum

/-- Union of the id sets of a list of (id-typed) entries; amount-typed
entries contribute the empty set. -/
def idsUnion (es : List ResourceSpecifier) : Finset Nat :=
  es.foldl (fun acc e => match e with | .Amount _ _ => acc | .Ids _ s => acc ∪ s) ∅

/-- Modelled from the spec: `worktop_content_tracker.rs` is not present in
the source tree.  Section 3 `WorktopState`: either tracked, holding a
mapping from resource address to a multiset of `ResourceSpecifier`
entries currently sitting on the worktop (represented here as the flat
multiset of entries, each tagged with its address), or untracked
(terminal).  The `untracked_mode` flag records the untracked state. -/
structure WorktopContentTracker where
  worktop_content : List ResourceSpecifier
  untracked_mode : Bool
deriving DecidableEq

/-- Modelled from the spec: section 4.1 `is_untracked_mode()`. -/
def WorktopContentTracker.is_untracked_mode (t : WorktopContentTracker) : Bool :=
  t.untracked_mode

/-- Modelled from the spec: section 4.1 `enter_untracked_mode()`,
idempotent and irreversible. -/
def WorktopContentTracker.enter_untracked_mode (t : WorktopContentTracker) : WorktopContentTracker :=
  { t with untracked_mode := true }

/-- Modelled from the spec: section 4.1 `put(specifier)`: while tracked,
adds the specifier to the pool (multiple independent entries for one
address may coexist); a no-op once untracked. -/
def WorktopContentTracker.put_to_worktop (s : ResourceSpecifier) (t : WorktopContentTracker) : WorktopContentTracker :=
  if t.untracked_mode then t
  else { t with worktop_content := t.worktop_content ++ [s] }

/-- Modelled from the spec: section 4.1 `take_known(specifier)`.  For an
amount-typed specifier it succeeds only if the pool for that resource
address is itself amount-tracked (all entries amount-typed, and there is
at least one entry: an empty pool means there is nothing to subtract)
and the pooled amount is sufficient, reducing the pooled amount by the
taken amount.  For an id-typed specifier it succeeds only if every
requested id is present in the pooled id set, removing exactly those
ids.  Returns `false` with no mutation otherwise. -/
def WorktopContentTracker.take_from_worktop (s : ResourceSpecifier) (t : WorktopContentTracker) : Bool × WorktopContentTracker :=
  if t.untracked_mode then (false, t)
  else
    match s with
    | .Amount a q =>
      if entriesFor t.worktop_content a ≠ [] ∧
         (entriesFor t.worktop_content a).all (fun e => e.isAmount) ∧
         q ≤ amountSum (entriesFor t.worktop_content a) then
        (true, { t with worktop_content :=
          t.worktop_content.filter (fun e => !(e.address == a)) ++
            [.Amount a (amountSum (entriesFor t.worktop_content a) - q)] })
      else (false, t)
    | .Ids a ids =>
      if entriesFor t.worktop_content a ≠ [] ∧
         (entriesFor t.worktop_content a).all (fun e => e.isIds) ∧
         ids ⊆ idsUnion (entriesFor t.worktop_content a) then
        (true, { t with worktop_content :=
          t.worktop_content.filter (fun e => !(e.address == a)) ++
            [.Ids a (idsUnion (entriesFor t.worktop_content a) \ ids)] })
      else (false, t)

/-- Modelled from the spec: section 4.1 `take_all_of(resource_address)`:
while tracked, removes and returns the entire known pooled quantity for
the resource address if the pool holds any entry for it (merging the
entries per section 4.3; a mixed-tag pool is a classification failure
and yields `none`); `none` when the pool holds no entry. -/
def WorktopContentTracker.take_from_worktop_by_address (a : Nat) (t : WorktopContentTracker) : Option ResourceSpecifier × WorktopContentTracker :=
  if t.untracked_mode then (none, t)
  else
    match mergeEntries (entriesFor t.worktop_content a) with
    | some m => (some m, { t with worktop_content := t.worktop_content.filter (fun e => !(e.address == a)) })
    | none => (none, t)

/-- Error raised by a bucket lookup that finds no entry for the given
bucket identifier while tracked (spec section 4.2, `LookupError`). -/
inductive LookupError where
  | notFound
deriving DecidableEq

/-- Modelled from the spec: `bucket_tracker.rs` is not present in the
source tree.  Section 3 `BucketState`: either tracked, holding a mapping
from bucket identifier to `Option ResourceSpecifier` (`none` meaning the
bucket exists but its exact content is unknown), or untracked
(terminal).  New buckets receive the next instruction-assigned
identifier, kept in `next_bucket_id`. -/
structure BucketTracker where
  buckets : List (Nat × Option ResourceSpecifier)
  next_bucket_id : Nat
  untracked_mode : Bool
deriving DecidableEq

/-- Modelled from the spec: section 4.2 `is_untracked_mode()`. -/
def BucketTracker.is_untracked_mode (t : BucketTracker) : Bool :=
  t.untracked_mode

/-- Modelled from the spec: section 4.2 `enter_untracked_mode()`,
idempotent and irreversible. -/
def BucketTracker.enter_untracked_mode (t : BucketTracker) : BucketTracker :=
  { t with untracked_mode := true }

/-- Modelled from the spec: section 4.2 `new_bucket_known_resources`:
registers a new bucket (under the next instruction-assigned identifier)
holding an exact known quantity; a no-op once untracked. -/
def BucketTracker.new_bucket_known_resources (s : ResourceSpecifier) (t : BucketTracker) : BucketTracker :=
  if t.untracked_mode then t
  else { t with buckets := t.buckets ++ [(t.next_bucket_id, some s)],
                next_bucket_id := t.next_bucket_id + 1 }

/-- Modelled from the spec: section 4.2 `new_bucket_unknown_resources`:
registers a new bucket whose content is not known; a no-op once
untracked. -/
def BucketTracker.new_bucket_unknown_resources (t : BucketTracker) : BucketTracker :=
  if t.untracked_mode then t
  else { t with buckets := t.buckets ++ [(t.next_bucket_id, none)],
                next_bucket_id := t.next_bucket_id + 1 }

/-- Modelled from the spec: section 4.2 `bucket_consumed(bucket_id)`:
removes the bucket entirely and returns its known content if any; fails
with a `LookupError` if the identifier is not present while tracked.
Once untracked no bucket lookups are meaningful. -/
def BucketTracker.bucket_consumed (id : Nat) (t : BucketTracker) : Except LookupError (Option ResourceSpecifier) × BucketTracker :=
  if t.untracked_mode then (.error .notFound, t)
  else
    match t.buckets.lookup id with
    | some content => (.ok content, { t with buckets := t.buckets.filter (fun p => !(p.1 == id)) })
    | none => (.error .notFound, t)

/-- Modelled from the spec: section 4.2
`try_consume_fungible_from_bucket(bucket_id, amount)`: non-destructive;
succeeds only if the bucket is known and its content is amount-typed
with at least the requested amount available, returning the specifier
for the consumed amount without mutating the bucket state. -/
def BucketTracker.try_consume_fungible_from_bucket (id : Nat) (amount : Int) (t : BucketTracker) : Option ResourceSpecifier :=
  if t.untracked_mode then none
  else
    match t.buckets.lookup id with
    | some (some (.Amount a q)) => if amount ≤ q then some (.Amount a amount) else none
    | _ => none

/-- Modelled from the spec: section 4.2
`try_consume_non_fungible_from_bucket(bucket_id, ids)`: non-destructive;
succeeds only if the known ids of the bucket are a superset of the
requested ids. -/
def BucketTracker.try_consume_non_fungible_from_bucket (id : Nat) (ids : List Nat) (t : BucketTracker) : Option ResourceSpecifier :=
  if t.untracked_mode then none
  else
    match t.buckets.lookup id with
    | some (some (.Ids a s)) => if ids.toFinset ⊆ s then some (.Ids a ids.toFinset) else none
    | _ => none

/-- Modelled from the spec: `handler_method_calls.rs` and
`handler_function_calls.rs` are not present in the source tree.  Section
4.4 describes a small fixed classification table over the address and
method or function name of a generic call; we abstract the table lookup
by letting the call instruction carry its classification: a
withdraw-style call is treated as an unknown put to the worktop, a
deposit-style call as an unknown take, and any call not recognized is
treated conservatively as capable of arbitrary, unknowable worktop and
bucket effects. -/
inductive CallClassification where
  | withdrawStyle
  | depositStyle
  | unrecognized
deriving DecidableEq

/-- Embeds the `InstructionV1` variants as matched by
`TrustedWorktop::on_instruction`.  Fields not inspected by the
dispatcher (proof identifiers, assertion arguments beyond the resource
data, addresses of royalty or metadata calls) are retained only where
the dispatcher reads them.  `ids` fields are carried as lists (the
source receives a `Vec` and converts it to an `IndexSet`). -/
inductive InstructionV1 where
  | TakeAllFromWorktop (resource_address : Nat)
  | TakeFromWorktop (resource_address : Nat) (amount : Int)
  | TakeNonFungiblesFromWorktop (resource_address : Nat) (ids : List Nat)
  | ReturnToWorktop (bucket_id : Nat)
  | AssertWorktopContainsAny (resource_address : Nat)
  | AssertWorktopContains (resource_address : Nat) (amount : Int)
  | AssertWorktopContainsNonFungibles (resource_address : Nat) (ids : List Nat)
  | PopFromAuthZone
  | PushToAuthZone
  | CreateProofFromAuthZoneOfAmount (resource_address : Nat) (amount : Int)
  | CreateProofFromAuthZoneOfNonFungibles (resource_address : Nat) (ids : List Nat)
  | CreateProofFromAuthZoneOfAll (resource_address : Nat)
  | DropAuthZoneProofs
  | DropAuthZoneRegularProofs
  | DropAuthZoneSignatureProofs
  | CloneProof
  | DropProof
  | DropNamedProofs
  | DropAllProofs
  | AllocateGlobalAddress
  | CreateProofFromBucketOfAmount (bucket_id : Nat) (amount : Int)
  | CreateProofFromBucketOfNonFungibles (bucket_id : Nat) (ids : List Nat)
  | CreateProofFromBucketOfAll (bucket_id : Nat)
  | BurnResource (bucket_id : Nat)
  | CallMethod (classification : CallClassification)
  | CallFunction (classification : CallClassification)
  | CallRoyaltyMethod
  | CallRoleAssignmentMethod
  | CallMetadataMethod
  | CallDirectVaultMethod
deriving DecidableEq

/-- Embeds `TrustedWorktopInstruction`: the per-instruction trust
verdict together with the resources moved in the context of the
instruction. -/
structure TrustedWorktopInstruction where
  trusted : Bool
  resources : List ResourceSpecifier
deriving DecidableEq

/-- Embeds the `TrustedWorktop` analyzer state: the output accumulator
of verdicts plus the two trackers. -/
structure TrustedWorktop where
  trusted_state_per_instruction : List TrustedWorktopInstruction
  bucket_tracker : BucketTracker
  worktop_content_tracker : WorktopContentTracker
deriving DecidableEq

/-- Embeds `TrustedWorktop::add_new_instruction`: appends one verdict,
wrapping an optional single specifier as a zero- or one-element
resource list. -/
def TrustedWorktop.add_new_instruction (s : TrustedWorktop) (trusted : Bool)
    (input_resources : Option ResourceSpecifier) : TrustedWorktop :=
  { s with trusted_state_per_instruction :=
      s.trusted_state_per_instruction ++
        [{ trusted := trusted,
           resources := match input_resources with
             | some res => [res]
             | none => [] }] }

/-- The `Default` derivation of `TrustedWorktop`: empty output, both
trackers freshly tracked and empty. -/
def TrustedWorktop.initial : TrustedWorktop :=
  { trusted_state_per_instruction := []
    bucket_tracker := { buckets := [], next_bucket_id := 0, untracked_mode := false }
    worktop_content_tracker := { worktop_content := [], untracked_mode := false } }

/-- Errors with which the analysis aborts: the three `expect` calls in
`on_instruction` (panics in the source) and the final `assert_eq` on the
accumulator length. -/
inductive TWError where
  | expectedResources
  | mustSucceed
  | bucketNotFound
  | assertFailed
deriving DecidableEq

/-- Modelled from the spec: `handler_method_calls.rs` and
`handler_function_calls.rs` are absent; per section 4.4 a withdraw-style
call is an unknown put to the worktop (the worktop content tracker
enters untracked mode, verdict untrusted), a deposit-style call is an
unknown take (likewise), and an unrecognized call is treated as capable
of arbitrary unknowable worktop and bucket effects (both trackers enter
untracked mode, verdict untrusted). -/
def TrustedWorktop.handle_call (c : CallClassification) (s : TrustedWorktop) : TrustedWorktop :=
  match c with
  | .withdrawStyle =>
    ({ s with worktop_content_tracker := s.worktop_content_tracker.enter_untracked_mode
     }).add_new_instruction false none
  | .depositStyle =>
    ({ s with worktop_content_tracker := s.worktop_content_tracker.enter_untracked_mode
     }).add_new_instruction false none
  | .unrecognized =>
    ({ s with worktop_content_tracker := s.worktop_content_tracker.enter_untracked_mode,
              bucket_tracker := s.bucket_tracker.enter_untracked_mode
     }).add_new_instruction false none

/-- Modelled from the spec: `handler_method_calls.rs` is absent;
`handle_call_methods` dispatches by address and method name to the
fixed classification table, abstracted here by the classification
carried on the instruction. -/
def TrustedWorktop.handle_call_methods (c : CallClassification) (s : TrustedWorktop) : TrustedWorktop :=
  s.handle_call c

/-- Modelled from the spec: `handler_function_calls.rs` is absent;
`handle_call_functions` dispatches by package address, blueprint and
function name to the fixed classification table, abstracted here by the
classification carried on the instruction. -/
def TrustedWorktop.handle_call_functions (c : CallClassification) (s : TrustedWorktop) : TrustedWorktop :=
  s.handle_call c

/-- Modelled from the spec: `handler_method_calls.rs` is absent; per the
section 4.4 policy table royalty method calls are always trusted with no
resources recorded, never moving resources or touching buckets or the
worktop. -/
def TrustedWorktop.handle_call_royalty_methods (s : TrustedWorktop) : TrustedWorktop :=
  s.add_new_instruction true none

/-- Embeds the match body of `TrustedWorktop::on_instruction` (the
dispatcher policy, before the final accumulator-length assertion).  The
`expect` calls of the source become `TWError` results. -/
def TrustedWorktop.onInstructionCore (instruction : InstructionV1) (s : TrustedWorktop) : Except TWError TrustedWorktop :=
  match instruction with
  | .TakeAllFromWorktop resource_address =>
    if !s.worktop_content_tracker.is_untracked_mode then
      match s.worktop_content_tracker.take_from_worktop_by_address resource_address with
      | (some resources, wt) =>
        .ok (({ s with worktop_content_tracker := wt,
                       bucket_tracker := s.bucket_tracker.new_bucket_known_resources resources
              }).add_new_instruction true (some resources))
      | (none, _) => .error .expectedResources
    else
      .ok (({ s with bucket_tracker := s.bucket_tracker.new_bucket_unknown_resources
            }).add_new_instruction false none)
  | .TakeFromWorktop resource_address amount =>
    if !s.worktop_content_tracker.is_untracked_mode then
      let resources := ResourceSpecifier.Amount resource_address amount
      match s.worktop_content_tracker.take_from_worktop resources with
      | (true, wt) =>
        .ok (({ s with worktop_content_tracker := wt,
                       bucket_tracker := s.bucket_tracker.new_bucket_known_resources resources
              }).add_new_instruction true (some resources))
      | (false, wt) =>
        .ok (({ s with worktop_content_tracker := wt,
                       bucket_tracker := s.bucket_tracker.new_bucket_unknown_resources
              }).add_new_instruction false none)
    else
      .ok (({ s with bucket_tracker := s.bucket_tracker.new_bucket_unknown_resources
            }).add_new_instruction false none)
  | .TakeNonFungiblesFromWorktop resource_address ids =>
    if !s.worktop_content_tracker.is_untracked_mode then
      let indexed_ids : Finset Nat := ids.toFinset
      let resources := ResourceSpecifier.Ids resource_address indexed_ids
      match s.worktop_content_tracker.take_from_worktop resources with
      | (true, wt) =>
        .ok (({ s with worktop_content_tracker := wt,
                       bucket_tracker := s.bucket_tracker.new_bucket_known_resources resources
              }).add_new_instruction true (some resources))
      | (false, wt) =>
        .ok (({ s with worktop_content_tracker := wt,
                       bucket_tracker := s.bucket_tracker.new_bucket_unknown_resources
              }).add_new_instruction false none)
    else
      .ok (({ s with bucket_tracker := s.bucket_tracker.new_bucket_unknown_resources
            }).add_new_instruction false none)
  | .ReturnToWorktop bucket_id =>
    if !s.bucket_tracker.is_untracked_mode then
      match s.bucket_tracker.bucket_consumed bucket_id with
      | (.ok (some resources), bt) =>
        let s1 := ({ s with bucket_tracker := bt }).add_new_instruction true (some resources)
        if !s1.worktop_content_tracker.is_untracked_mode then
          .ok { s1 with worktop_content_tracker := s1.worktop_content_tracker.put_to_worktop resources }
        else
          .ok s1
      | (.ok none, bt) =>
        .ok (({ s with bucket_tracker := bt,
                       worktop_content_tracker := s.worktop_content_tracker.enter_untracked_mode
              }).add_new_instruction false none)
      | (.error _, _) => .error .mustSucceed
    else
      .ok (({ s with worktop_content_tracker := s.worktop_content_tracker.enter_untracked_mode
            }).add_new_instruction false none)
  | .AssertWorktopContainsAny _ => .ok (s.add_new_instruction true none)
  | .AssertWorktopContains _ _ => .ok (s.add_new_instruction true none)
  | .AssertWorktopContainsNonFungibles _ _ => .ok (s.add_new_instruction true none)
  | .PopFromAuthZone => .ok (s.add_new_instruction true none)
  | .PushToAuthZone => .ok (s.add_new_instruction true none)
  | .CreateProofFromAuthZoneOfAmount _ _ => .ok (s.add_new_instruction true none)
  | .CreateProofFromAuthZoneOfNonFungibles _ _ => .ok (s.add_new_instruction true none)
  | .CreateProofFromAuthZoneOfAll _ => .ok (s.add_new_instruction true none)
  | .DropAuthZoneProofs => .ok (s.add_new_instruction true none)
  | .DropAuthZoneRegularProofs => .ok (s.add_new_instruction true none)
  | .DropAuthZoneSignatureProofs => .ok (s.add_new_instruction true none)
  | .CloneProof => .ok (s.add_new_instruction true none)
  | .DropProof => .ok (s.add_new_instruction true none)
  | .DropNamedProofs => .ok (s.add_new_instruction true none)
  | .DropAllProofs => .ok (s.add_new_instruction true none)
  | .AllocateGlobalAddress => .ok (s.add_new_instruction true none)
  | .CreateProofFromBucketOfAmount bucket_id amount =>
    match s.bucket_tracker.try_consume_fungible_from_bucket bucket_id amount with
    | some res => .ok (s.add_new_instruction true (some res))
    | none => .ok (s.add_new_instruction false none)
  | .CreateProofFromBucketOfNonFungibles bucket_id ids =>
    match s.bucket_tracker.try_consume_non_fungible_from_bucket bucket_id ids with
    | some res => .ok (s.add_new_instruction true (some res))
    | none => .ok (s.add_new_instruction false none)
  | .CreateProofFromBucketOfAll bucket_id =>
    if !s.bucket_tracker.is_untracked_mode then
      match s.bucket_tracker.bucket_consumed bucket_id with
      | (.ok resources, bt) =>
        .ok (({ s with bucket_tracker := bt }).add_new_instruction resources.isSome resources)
      | (.error _, _) => .error .bucketNotFound
    else
      .ok (s.add_new_instruction false none)
  | .BurnResource bucket_id =>
    if !s.bucket_tracker.is_untracked_mode then
      match s.bucket_tracker.bucket_consumed bucket_id with
      | (.ok resources, bt) =>
        .ok (({ s with bucket_tracker := bt }).add_new_instruction resources.isSome resources)
      | (.error _, _) => .error .bucketNotFound
    else
      .ok (s.add_new_instruction false none)
  | .CallMethod classification => .ok (s.handle_call_methods classification)
  | .CallFunction classification => .ok (s.handle_call_functions classification)
  | .CallRoyaltyMethod => .ok s.handle_call_royalty_methods
  | .CallRoleAssignmentMethod => .ok (s.add_new_instruction true none)
  | .CallMetadataMethod => .ok (s.add_new_instruction true none)
  | .CallDirectVaultMethod =>
    .ok (({ s with worktop_content_tracker := s.worktop_content_tracker.enter_untracked_mode,
                   bucket_tracker := s.bucket_tracker.enter_untracked_mode
          }).add_new_instruction false none)

/-- Embeds `TrustedWorktop::on_instruction`: the dispatcher policy
followed by the `assert_eq` that the accumulator length equals
`instruction_index + 1`. -/
def TrustedWorktop.onInstruction (instruction : InstructionV1) (instruction_index : Nat)
    (s : TrustedWorktop) : Except TWError TrustedWorktop :=
  match s.onInstructionCore instruction with
  | .ok s1 =>
    if s1.trusted_state_per_instruction.length = instruction_index + 1 then .ok s1
    else .error .assertFailed
  | .error e => .error e

/-- Runs the dispatcher over an instruction sequence.  The traverser
supplies `instruction_index` equal to the number of instructions already
processed, which from a fresh `TrustedWorktop` equals the accumulator
length at entry to each step; that value is passed here. -/
def TrustedWorktop.runTW : List InstructionV1 → TrustedWorktop → Except TWError TrustedWorktop
  | [], s => .ok s
  | i :: rest, s =>
    match s.onInstruction i s.trusted_state_per_instruction.length with
    | .ok s1 => TrustedWorktop.runTW rest s1
    | .error e => .error e

/-! ### Basic facts about the tracker operations -/

@[simp]
theorem WorktopContentTracker.worktop_enter_untracked_flag (t : WorktopContentTracker) :
    t.enter_untracked_mode.untracked_mode = true := rfl

@[simp]
theorem WorktopContentTracker.put_to_worktop_flag (s : ResourceSpecifier) (t : WorktopContentTracker) :
    (WorktopContentTracker.put_to_worktop s t).untracked_mode = t.untracked_mode := by
  unfold WorktopContentTracker.put_to_worktop
  split <;> rfl

@[simp]
theorem WorktopContentTracker.take_from_worktop_flag (s : ResourceSpecifier) (t : WorktopContentTracker) :
    (WorktopContentTracker.take_from_worktop s t).2.untracked_mode = t.untracked_mode := by
  unfold WorktopContentTracker.take_from_worktop
  split
  · rfl
  · cases s <;> dsimp only <;> split <;> rfl

@[simp]
theorem WorktopContentTracker.take_from_worktop_by_address_flag (a : Nat) (t : WorktopContentTracker) :
    (WorktopContentTracker.take_from_worktop_by_address a t).2.untracked_mode = t.untracked_mode := by
  unfold WorktopContentTracker.take_from_worktop_by_address
  split
  · rfl
  · split <;> rfl

theorem WorktopContentTracker.take_from_worktop_false (s : ResourceSpecifier) (t : WorktopContentTracker)
    (h : (WorktopContentTracker.take_from_worktop s t).1 = false) :
    (WorktopContentTracker.take_from_worktop s t).2 = t := by
  unfold WorktopContentTracker.take_from_worktop at h ⊢
  split at h
  · next hc => rw [if_pos hc]
  · next hc =>
    rw [if_neg hc]
    cases s <;> dsimp only at h ⊢ <;> split at h
    · simp at h
    · next hc2 => rw [if_neg hc2]
    · simp at h
    · next hc2 => rw [if_neg hc2]

@[simp]
theorem BucketTracker.bucket_enter_untracked_flag (t : BucketTracker) :
    t.enter_untracked_mode.untracked_mode = true := rfl

@[simp]
theorem BucketTracker.new_bucket_known_resources_flag (s : ResourceSpecifier) (t : BucketTracker) :
    (BucketTracker.new_bucket_known_resources s t).untracked_mode = t.untracked_mode := by
  unfold BucketTracker.new_bucket_known_resources
  split <;> rfl

@[simp]
theorem BucketTracker.new_bucket_unknown_resources_flag (t : BucketTracker) :
    t.new_bucket_unknown_resources.untracked_mode = t.untracked_mode := by
  unfold BucketTracker.new_bucket_unknown_resources
  split <;> rfl

@[simp]
theorem BucketTracker.bucket_consumed_flag (id : Nat) (t : BucketTracker) :
    (BucketTracker.bucket_consumed id t).2.untracked_mode = t.untracked_mode := by
  unfold BucketTracker.bucket_consumed
  split
  · rfl
  · split <;> rfl

@[simp]
theorem TrustedWorktop.add_new_instruction_worktop (s : TrustedWorktop) (b : Bool)
    (r : Option ResourceSpecifier) :
    (s.add_new_instruction b r).worktop_content_tracker = s.worktop_content_tracker := rfl

@[simp]
theorem TrustedWorktop.add_new_instruction_bucket (s : TrustedWorktop) (b : Bool)
    (r : Option ResourceSpecifier) :
    (s.add_new_instruction b r).bucket_tracker = s.bucket_tracker := rfl

theorem TrustedWorktop.add_new_instruction_output (s : TrustedWorktop) (b : Bool)
    (r : Option ResourceSpecifier) :
    (s.add_new_instruction b r).trusted_state_per_instruction =
      s.trusted_state_per_instruction ++
        [{ trusted := b, resources := match r with | some x => [x] | none => [] }] := rfl

/-! ### Step lemmas for the dispatcher -/

theorem TrustedWorktop.onInstructionCore_appends (i : InstructionV1) (s s1 : TrustedWorktop)
    (h : s.onInstructionCore i = .ok s1) :
    ∃ v, s1.trusted_state_per_instruction = s.trusted_state_per_instruction ++ [v] := by
  cases i <;>
    simp only [TrustedWorktop.onInstructionCore, TrustedWorktop.handle_call_methods,
      TrustedWorktop.handle_call_functions, TrustedWorktop.handle_call_royalty_methods,
      TrustedWorktop.handle_call] at h <;>
    (repeat' split at h) <;>
    cases h <;>
    exact ⟨_, rfl⟩

theorem TrustedWorktop.onInstructionCore_worktop_mono (i : InstructionV1) (s s1 : TrustedWorktop)
    (h : s.onInstructionCore i = .ok s1)
    (hw : s.worktop_content_tracker.untracked_mode = true) :
    s1.worktop_content_tracker.untracked_mode = true := by
  cases i <;>
    simp only [TrustedWorktop.onInstructionCore, TrustedWorktop.handle_call_methods,
      TrustedWorktop.handle_call_functions, TrustedWorktop.handle_call_royalty_methods,
      TrustedWorktop.handle_call] at h <;>
    (repeat' split at h) <;>
    cases h <;>
    simp_all [WorktopContentTracker.is_untracked_mode]

theorem TrustedWorktop.onInstructionCore_bucket_mono (i : InstructionV1) (s s1 : TrustedWorktop)
    (h : s.onInstructionCore i = .ok s1)
    (hb : s.bucket_tracker.untracked_mode = true) :
    s1.bucket_tracker.untracked_mode = true := by
  cases i <;>
    simp only [TrustedWorktop.onInstructionCore, TrustedWorktop.handle_call_methods,
      TrustedWorktop.handle_call_functions, TrustedWorktop.handle_call_royalty_methods,
      TrustedWorktop.handle_call] at h <;>
    (repeat' split at h) <;>
    cases h <;>
    simp_all [BucketTracker.is_untracked_mode]

theorem TrustedWorktop.onInstruction_ok_core (i : InstructionV1) (idx : Nat) (s s1 : TrustedWorktop)
    (h : s.onInstruction i idx = .ok s1) :
    s.onInstructionCore i = .ok s1 ∧
      s1.trusted_state_per_instruction.length = idx + 1 := by
  unfold TrustedWorktop.onInstruction at h
  split at h
  · next heq =>
    split at h
    · cases h; exact ⟨heq, by assumption⟩
    · cases h
  · cases h

theorem TrustedWorktop.onInstruction_aligned (i : InstructionV1) (s s1 : TrustedWorktop)
    (h : s.onInstructionCore i = .ok s1) :
    s.onInstruction i s.trusted_state_per_instruction.length = .ok s1 := by
  obtain ⟨v, hv⟩ := TrustedWorktop.onInstructionCore_appends i s s1 h
  unfold TrustedWorktop.onInstruction
  simp [h, hv]

theorem TrustedWorktop.onInstruction_aligned_error (i : InstructionV1) (s : TrustedWorktop)
    (e : TWError) (h : s.onInstructionCore i = .error e) :
    s.onInstruction i s.trusted_state_per_instruction.length = .error e := by
  unfold TrustedWorktop.onInstruction
  simp [h]

/-! ### Run lemmas -/

theorem TrustedWorktop.runTW_cons (i : InstructionV1) (rest : List InstructionV1) (s : TrustedWorktop) :
    TrustedWorktop.runTW (i :: rest) s =
      match s.onInstruction i s.trusted_state_per_instruction.length with
      | .ok s1 => TrustedWorktop.runTW rest s1
      | .error e => .error e := rfl

theorem TrustedWorktop.runTW_append (l1 l2 : List InstructionV1) (s : TrustedWorktop) :
    TrustedWorktop.runTW (l1 ++ l2) s =
      match TrustedWorktop.runTW l1 s with
      | .ok t => TrustedWorktop.runTW l2 t
      | .error e => .error e := by
  induction l1 generalizing s with
  | nil => rfl
  | cons i rest ih =>
    rw [List.cons_append, TrustedWorktop.runTW_cons, TrustedWorktop.runTW_cons]
    split <;> simp [ih]

theorem TrustedWorktop.runTW_output_append (l : List InstructionV1) (s s1 : TrustedWorktop)
    (h : TrustedWorktop.runTW l s = .ok s1) :
    ∃ vs, s1.trusted_state_per_instruction = s.trusted_state_per_instruction ++ vs ∧
      vs.length = l.length := by
  induction l generalizing s with
  | nil => cases h; exact ⟨[], by simp⟩
  | cons i rest ih =>
    rw [TrustedWorktop.runTW_cons] at h
    split at h
    · next s2 heq =>
      obtain ⟨hcore, _⟩ := TrustedWorktop.onInstruction_ok_core i _ s s2 heq
      obtain ⟨v, hv⟩ := TrustedWorktop.onInstructionCore_appends i s s2 hcore
      obtain ⟨vs, hvs, hlen⟩ := ih s2 h
      exact ⟨v :: vs, by simp [hvs, hv], by simp [hlen]⟩
    · cases h

theorem TrustedWorktop.runTW_untracked_mono (l : List InstructionV1) (s s1 : TrustedWorktop)
    (h : TrustedWorktop.runTW l s = .ok s1) :
    (s.worktop_content_tracker.untracked_mode = true →
      s1.worktop_content_tracker.untracked_mode = true) ∧
    (s.bucket_tracker.untracked_mode = true →
      s1.bucket_tracker.untracked_mode = true) := by
  induction l generalizing s with
  | nil => cases h; exact ⟨fun hw => hw, fun hb => hb⟩
  | cons i rest ih =>
    rw [TrustedWorktop.runTW_cons] at h
    split at h
    · next s2 heq =>
      obtain ⟨hcore, _⟩ := TrustedWorktop.onInstruction_ok_core i _ s s2 heq
      obtain ⟨ihw, ihb⟩ := ih s2 h
      exact ⟨fun hw => ihw (TrustedWorktop.onInstructionCore_worktop_mono i s s2 hcore hw),
             fun hb => ihb (TrustedWorktop.onInstructionCore_bucket_mono i s s2 hcore hb)⟩
    · cases h

/-! ### Claim C1 -/

/-- Claim C1: for every instruction sequence and both trackers (worktop
content tracker and bucket tracker), if a tracker reports untracked mode
after processing instruction i, it still does after processing every
later instruction j > i: no dispatcher step transitions a tracker from
untracked back to tracked.  Here `s` is the analyzer state after
instruction i and `rest` the instructions processed afterwards. -/
theorem untracked_mode_monotone (rest : List InstructionV1) (s s1 : TrustedWorktop)
    (h : TrustedWorktop.runTW rest s = .ok s1) :
    (s.worktop_content_tracker.is_untracked_mode = true →
      s1.worktop_content_tracker.is_untracked_mode = true) ∧
    (s.bucket_tracker.is_untracked_mode = true →
      s1.bucket_tracker.is_untracked_mode = true) :=
  TrustedWorktop.runTW_untracked_mono rest s s1 h

/-- An analyzer state whose two trackers are both untracked. -/
def stateBothUntracked : TrustedWorktop :=
  { trusted_state_per_instruction := []
    bucket_tracker := { buckets := [], next_bucket_id := 0, untracked_mode := true }
    worktop_content_tracker := { worktop_content := [], untracked_mode := true } }

/-- The state obtained from `stateBothUntracked` by one pure proof
instruction. -/
def stateBothUntrackedStepped : TrustedWorktop :=
  { trusted_state_per_instruction := [{ trusted := true, resources := [] }]
    bucket_tracker := { buckets := [], next_bucket_id := 0, untracked_mode := true }
    worktop_content_tracker := { worktop_content := [], untracked_mode := true } }

theorem untracked_mode_monotone_witness :
    stateBothUntrackedStepped.worktop_content_tracker.is_untracked_mode = true ∧
    stateBothUntrackedStepped.bucket_tracker.is_untracked_mode = true :=
  ⟨(untracked_mode_monotone [.DropAllProofs] stateBothUntracked stateBothUntrackedStepped
      (by rfl)).1 (by rfl),
   (untracked_mode_monotone [.DropAllProofs] stateBothUntracked stateBothUntrackedStepped
      (by rfl)).2 (by rfl)⟩

/-! ### Claim C8 -/

/-- Claim C8: for every instruction sequence and after each processed
instruction (every prefix of a successful run, not only the end of the
scan), the length of the output accumulator equals the number of
instructions processed so far: each instruction appends exactly one
verdict. -/
theorem output_length_matches_instructions (l1 l2 : List InstructionV1) (s1 : TrustedWorktop)
    (h : TrustedWorktop.runTW (l1 ++ l2) TrustedWorktop.initial = .ok s1) :
    (TrustedWorktop.runTW l1 TrustedWorktop.initial).map
        (fun t => t.trusted_state_per_instruction.length) = .ok l1.length ∧
    s1.trusted_state_per_instruction.length = (l1 ++ l2).length := by
  rw [TrustedWorktop.runTW_append] at h
  cases hr : TrustedWorktop.runTW l1 TrustedWorktop.initial with
  | error e => rw [hr] at h; cases h
  | ok t =>
    rw [hr] at h
    dsimp only at h
    obtain ⟨vs, hvs, hlen⟩ := TrustedWorktop.runTW_output_append l1 TrustedWorktop.initial t hr
    obtain ⟨vs2, hvs2, hlen2⟩ := TrustedWorktop.runTW_output_append l2 t s1 h
    constructor
    · simp [Except.map, hvs, hlen, TrustedWorktop.initial]
    · simp [hvs2, hvs, hlen, hlen2, TrustedWorktop.initial]

theorem output_length_matches_instructions_witness :
    (TrustedWorktop.runTW [InstructionV1.DropAllProofs] TrustedWorktop.initial).map
        (fun t => t.trusted_state_per_instruction.length) = .ok 1 :=
  (output_length_matches_instructions [.DropAllProofs] [.PopFromAuthZone]
    { trusted_state_per_instruction :=
        [{ trusted := true, resources := [] }, { trusted := true, resources := [] }],
      bucket_tracker := { buckets := [], next_bucket_id := 0, untracked_mode := false },
      worktop_content_tracker := { worktop_content := [], untracked_mode := false } }
    (by rfl)).1

/-! ### Claim C9 -/

/-- The pure proof and authzone instructions of the section 4.4 policy
row: pop or push from the auth zone, create-proof-from-auth-zone of
amount, of non-fungibles or of all, drop auth-zone proofs of any kind,
clone or drop a proof, drop named or all proofs, allocate a global
address. -/
def isPureProofAuthZoneOp : InstructionV1 → Bool
  | .PopFromAuthZone | .PushToAuthZone
  | .CreateProofFromAuthZoneOfAmount _ _ | .CreateProofFromAuthZoneOfNonFungibles _ _
  | .CreateProofFromAuthZoneOfAll _
  | .DropAuthZoneProofs | .DropAuthZoneRegularProofs | .DropAuthZoneSignatureProofs
  | .CloneProof | .DropProof | .DropNamedProofs | .DropAllProofs
  | .AllocateGlobalAddress => true
  | _ => false

theorem TrustedWorktop.onInstructionCore_pure (i : InstructionV1) (s : TrustedWorktop)
    (hp : isPureProofAuthZoneOp i = true) :
    s.onInstructionCore i = .ok (s.add_new_instruction true none) := by
  cases i <;> first
    | rfl
    | exact absurd hp (by simp [isPureProofAuthZoneOp])

theorem TrustedWorktop.runTW_pure (l : List InstructionV1) (s : TrustedWorktop)
    (hp : ∀ i ∈ l, isPureProofAuthZoneOp i = true) :
    TrustedWorktop.runTW l s = .ok { s with trusted_state_per_instruction :=
      (s.trusted_state_per_instruction ++
        List.replicate l.length { trusted := true, resources := [] }) } := by
  induction l generalizing s with
  | nil => simp [TrustedWorktop.runTW]
  | cons i rest ih =>
    have hi := TrustedWorktop.onInstructionCore_pure i s (hp i (by simp))
    rw [TrustedWorktop.runTW_cons, TrustedWorktop.onInstruction_aligned i s _ hi]
    dsimp only
    rw [ih (s.add_new_instruction true none) (fun j hj => hp j (by simp [hj]))]
    simp [TrustedWorktop.add_new_instruction, List.replicate_succ]

/-- Claim C9: for every instruction sequence consisting only of pure
proof and authzone operations, every produced verdict is trusted with
empty resources and both trackers remain in tracked mode throughout
(after every prefix of the run). -/
theorem pure_proof_ops_trusted (l1 l2 : List InstructionV1)
    (hp : ∀ i ∈ l1 ++ l2, isPureProofAuthZoneOp i = true) :
    (TrustedWorktop.runTW l1 TrustedWorktop.initial).map
        (fun t => t.trusted_state_per_instruction) =
      .ok (List.replicate l1.length { trusted := true, resources := [] }) ∧
    (TrustedWorktop.runTW l1 TrustedWorktop.initial).map
        (fun t => t.worktop_content_tracker.is_untracked_mode) = .ok false ∧
    (TrustedWorktop.runTW l1 TrustedWorktop.initial).map
        (fun t => t.bucket_tracker.is_untracked_mode) = .ok false := by
  rw [TrustedWorktop.runTW_pure l1 TrustedWorktop.initial
    (fun i hi => hp i (by simp [hi]))]
  exact ⟨rfl, rfl, rfl⟩

theorem pure_proof_ops_trusted_witness :
    (TrustedWorktop.runTW [InstructionV1.PopFromAuthZone] TrustedWorktop.initial).map
        (fun t => t.trusted_state_per_instruction) =
      .ok [{ trusted := true, resources := [] }] ∧
    (TrustedWorktop.runTW [InstructionV1.PopFromAuthZone] TrustedWorktop.initial).map
        (fun t => t.worktop_content_tracker.is_untracked_mode) = .ok false ∧
    (TrustedWorktop.runTW [InstructionV1.PopFromAuthZone] TrustedWorktop.initial).map
        (fun t => t.bucket_tracker.is_untracked_mode) = .ok false :=
  pure_proof_ops_trusted [.PopFromAuthZone] [.DropAllProofs] (by decide)

/-! ### Claim C10 -/

/-- Claim C10: every worktop assertion instruction
(AssertWorktopContainsAny, AssertWorktopContains,
AssertWorktopContainsNonFungibles) is classified trusted with empty
resources and leaves both tracker states unchanged, regardless of the
current analyzer state: the dispatcher treats them exactly like the
pure proof and authzone operations. -/
theorem assert_worktop_instructions_trusted (s : TrustedWorktop) (a : Nat) (q : Int)
    (ids : List Nat) :
    s.onInstruction (.AssertWorktopContainsAny a)
        s.trusted_state_per_instruction.length = .ok (s.add_new_instruction true none) ∧
    s.onInstruction (.AssertWorktopContains a q)
        s.trusted_state_per_instruction.length = .ok (s.add_new_instruction true none) ∧
    s.onInstruction (.AssertWorktopContainsNonFungibles a ids)
        s.trusted_state_per_instruction.length = .ok (s.add_new_instruction true none) ∧
    (s.add_new_instruction true none).worktop_content_tracker = s.worktop_content_tracker ∧
    (s.add_new_instruction true none).bucket_tracker = s.bucket_tracker ∧
    (s.add_new_instruction true none).trusted_state_per_instruction =
      s.trusted_state_per_instruction ++ [{ trusted := true, resources := [] }] :=
  ⟨TrustedWorktop.onInstruction_aligned _ s _ rfl,
   TrustedWorktop.onInstruction_aligned _ s _ rfl,
   TrustedWorktop.onInstruction_aligned _ s _ rfl, rfl, rfl, rfl⟩

/-! ### Claim C2 -/

/-- Claim C2: for a take-amount (TakeFromWorktop) or take-ids
(TakeNonFungiblesFromWorktop) instruction processed while the worktop
tracker is tracked but `take_from_worktop` returns false, the dispatcher
registers a new bucket with unknown content, records an untrusted
verdict with empty resources, and the worktop tracker is left unchanged,
hence still in tracked mode. -/
theorem take_known_failure_keeps_worktop_tracked (s : TrustedWorktop) (a : Nat) (q : Int)
    (ids : List Nat)
    (hw : s.worktop_content_tracker.is_untracked_mode = false) :
    ((s.worktop_content_tracker.take_from_worktop (.Amount a q)).1 = false →
      s.onInstruction (.TakeFromWorktop a q) s.trusted_state_per_instruction.length =
        .ok (({ s with bucket_tracker := s.bucket_tracker.new_bucket_unknown_resources
              }).add_new_instruction false none)) ∧
    ((s.worktop_content_tracker.take_from_worktop (.Ids a ids.toFinset)).1 = false →
      s.onInstruction (.TakeNonFungiblesFromWorktop a ids)
          s.trusted_state_per_instruction.length =
        .ok (({ s with bucket_tracker := s.bucket_tracker.new_bucket_unknown_resources
              }).add_new_instruction false none)) ∧
    (({ s with bucket_tracker := s.bucket_tracker.new_bucket_unknown_resources
       }).add_new_instruction false none).worktop_content_tracker.is_untracked_mode = false := by
  refine ⟨?_, ?_, hw⟩
  · intro hf
    have hsnd := WorktopContentTracker.take_from_worktop_false _ _ hf
    apply TrustedWorktop.onInstruction_aligned
    simp only [TrustedWorktop.onInstructionCore]
    split
    · split
      · next wt heq => rw [heq] at hf; simp at hf
      · next wt heq =>
        rw [heq] at hsnd
        dsimp only at hsnd
        subst hsnd
        rfl
    · next hcon => simp [hw] at hcon
  · intro hf
    have hsnd := WorktopContentTracker.take_from_worktop_false _ _ hf
    apply TrustedWorktop.onInstruction_aligned
    simp only [TrustedWorktop.onInstructionCore]
    split
    · split
      · next wt heq => rw [heq] at hf; simp at hf
      · next wt heq =>
        rw [heq] at hsnd
        dsimp only at hsnd
        subst hsnd
        rfl
    · next hcon => simp [hw] at hcon

/-- A tracked analyzer state whose worktop pool holds resource 7 as a
precise id set. -/
def stateIdsPool : TrustedWorktop :=
  { trusted_state_per_instruction := []
    bucket_tracker := { buckets := [], next_bucket_id := 0, untracked_mode := false }
    worktop_content_tracker :=
      { worktop_content := [.Ids 7 {1, 2}], untracked_mode := false } }

theorem take_known_failure_keeps_worktop_tracked_witness :
    stateIdsPool.onInstruction (.TakeFromWorktop 7 5)
        stateIdsPool.trusted_state_per_instruction.length =
      .ok (({ stateIdsPool with bucket_tracker :=
            stateIdsPool.bucket_tracker.new_bucket_unknown_resources
          }).add_new_instruction false none) :=
  (take_known_failure_keeps_worktop_tracked stateIdsPool 7 5 [] (by rfl)).1 (by decide)

/-! ### Claim C3 -/

/-- Claim C3: for a ReturnToWorktop instruction where either the bucket
tracker is untracked, or it is tracked and the consumed bucket exists
with unknown content, the dispatcher calls enter_untracked_mode on the
worktop content tracker and records an untrusted verdict with empty
resources. -/
theorem return_unknown_poisons_worktop (s : TrustedWorktop) (bucket_id : Nat)
    (h : s.bucket_tracker.is_untracked_mode = true ∨
         (s.bucket_tracker.is_untracked_mode = false ∧
          s.bucket_tracker.buckets.lookup bucket_id = some none)) :
    (s.onInstruction (.ReturnToWorktop bucket_id)
        s.trusted_state_per_instruction.length).map
      (fun t => t.worktop_content_tracker) =
      .ok s.worktop_content_tracker.enter_untracked_mode ∧
    (s.onInstruction (.ReturnToWorktop bucket_id)
        s.trusted_state_per_instruction.length).map
      (fun t => t.trusted_state_per_instruction) =
      .ok (s.trusted_state_per_instruction ++ [{ trusted := false, resources := [] }]) := by
  rcases h with hb | ⟨hb, hl⟩
  · have hcore : s.onInstructionCore (.ReturnToWorktop bucket_id) =
        .ok (({ s with worktop_content_tracker :=
              s.worktop_content_tracker.enter_untracked_mode
            }).add_new_instruction false none) := by
      simp only [TrustedWorktop.onInstructionCore, hb, Bool.not_true]
      rfl
    rw [TrustedWorktop.onInstruction_aligned _ s _ hcore]
    exact ⟨rfl, rfl⟩
  · have hbc : s.bucket_tracker.bucket_consumed bucket_id =
        (.ok none, { s.bucket_tracker with buckets := (s.bucket_tracker.buckets.filter
          (fun p => !(p.1 == bucket_id))) }) := by
      have hb2 : s.bucket_tracker.untracked_mode = false := by
        simpa [BucketTracker.is_untracked_mode] using hb
      unfold BucketTracker.bucket_consumed
      rw [hb2]
      simp [hl]
      exact hb2
    have hcore : s.onInstructionCore (.ReturnToWorktop bucket_id) =
        .ok (({ s with
              bucket_tracker := { s.bucket_tracker with buckets := (s.bucket_tracker.buckets.filter
                (fun p => !(p.1 == bucket_id))) },
              worktop_content_tracker := s.worktop_content_tracker.enter_untracked_mode
            }).add_new_instruction false none) := by
      simp only [TrustedWorktop.onInstructionCore, hb, Bool.not_false, hbc]
      rfl
    rw [TrustedWorktop.onInstruction_aligned _ s _ hcore]
    exact ⟨rfl, rfl⟩

theorem return_unknown_poisons_worktop_witness :
    (stateBothUntracked.onInstruction (.ReturnToWorktop 0)
        stateBothUntracked.trusted_state_per_instruction.length).map
      (fun t => t.worktop_content_tracker) =
      .ok stateBothUntracked.worktop_content_tracker.enter_untracked_mode :=
  (return_unknown_poisons_worktop stateBothUntracked 0 (Or.inl (by rfl))).1

/-! ### Claim C4 -/

/-- The take-from-worktop and return-to-worktop instruction kinds. -/
def isTakeOrReturn : InstructionV1 → Bool
  | .TakeAllFromWorktop _ | .TakeFromWorktop _ _ | .TakeNonFungiblesFromWorktop _ _
  | .ReturnToWorktop _ => true
  | _ => false

theorem TrustedWorktop.onInstruction_take_return_untrusted (i : InstructionV1)
    (t : TrustedWorktop) (hw : t.worktop_content_tracker.is_untracked_mode = true)
    (hb : t.bucket_tracker.is_untracked_mode = true) (hi : isTakeOrReturn i = true) :
    (t.onInstruction i t.trusted_state_per_instruction.length).map
      (fun u => u.trusted_state_per_instruction.getLast?) =
      .ok (some { trusted := false, resources := [] }) := by
  cases i <;> first
    | (rw [TrustedWorktop.onInstruction_aligned _ t _
         (by simp only [TrustedWorktop.onInstructionCore, hw, hb, Bool.not_true]; rfl)]
       simp [Except.map, TrustedWorktop.add_new_instruction, List.getLast?_concat]
       done)
    | exact absurd hi (by simp [isTakeOrReturn])

/-- Claim C4: a CallDirectVaultMethod instruction, regardless of prior
state, puts both trackers into untracked mode and records the verdict
untrusted with no resources; consequently, after any further
instructions, every later take-from-worktop or return-to-worktop
instruction also yields an untrusted verdict. -/
theorem call_direct_vault_method_untracks_both (s : TrustedWorktop) :
    s.onInstruction .CallDirectVaultMethod s.trusted_state_per_instruction.length =
      .ok (({ s with
          worktop_content_tracker := s.worktop_content_tracker.enter_untracked_mode,
          bucket_tracker := s.bucket_tracker.enter_untracked_mode
        }).add_new_instruction false none) ∧
    (({ s with
        worktop_content_tracker := s.worktop_content_tracker.enter_untracked_mode,
        bucket_tracker := s.bucket_tracker.enter_untracked_mode
      }).add_new_instruction false none).worktop_content_tracker.is_untracked_mode = true ∧
    (({ s with
        worktop_content_tracker := s.worktop_content_tracker.enter_untracked_mode,
        bucket_tracker := s.bucket_tracker.enter_untracked_mode
      }).add_new_instruction false none).bucket_tracker.is_untracked_mode = true ∧
    (({ s with
        worktop_content_tracker := s.worktop_content_tracker.enter_untracked_mode,
        bucket_tracker := s.bucket_tracker.enter_untracked_mode
      }).add_new_instruction false none).trusted_state_per_instruction =
      s.trusted_state_per_instruction ++ [{ trusted := false, resources := [] }] ∧
    (∀ (rest : List InstructionV1) (t : TrustedWorktop) (i : InstructionV1),
      TrustedWorktop.runTW rest
          (({ s with
              worktop_content_tracker := s.worktop_content_tracker.enter_untracked_mode,
              bucket_tracker := s.bucket_tracker.enter_untracked_mode
            }).add_new_instruction false none) = .ok t →
      isTakeOrReturn i = true →
      (t.onInstruction i t.trusted_state_per_instruction.length).map
        (fun u => u.trusted_state_per_instruction.getLast?) =
        .ok (some { trusted := false, resources := [] })) := by
  refine ⟨TrustedWorktop.onInstruction_aligned _ s _ rfl, rfl, rfl, rfl, ?_⟩
  intro rest t i hrun hi
  obtain ⟨mw, mb⟩ := TrustedWorktop.runTW_untracked_mono rest _ t hrun
  exact TrustedWorktop.onInstruction_take_return_untrusted i t (mw rfl) (mb rfl) hi

/-- The state reached from a fresh analyzer by one CallDirectVaultMethod
instruction. -/
def stateAfterDVM : TrustedWorktop :=
  { trusted_state_per_instruction := [{ trusted := false, resources := [] }]
    bucket_tracker := { buckets := [], next_bucket_id := 0, untracked_mode := true }
    worktop_content_tracker := { worktop_content := [], untracked_mode := true } }

theorem call_direct_vault_method_untracks_both_witness :
    (stateAfterDVM.onInstruction (.TakeAllFromWorktop 0)
        stateAfterDVM.trusted_state_per_instruction.length).map
      (fun u => u.trusted_state_per_instruction.getLast?) =
      .ok (some { trusted := false, resources := [] }) :=
  (call_direct_vault_method_untracks_both TrustedWorktop.initial).2.2.2.2
    [] stateAfterDVM (.TakeAllFromWorktop 0) (by rfl) (by rfl)

/-! ### Claim C6 -/

theorem TrustedWorktop.onInstruction_error (i : InstructionV1) (idx : Nat)
    (s : TrustedWorktop) (e : TWError) (h : s.onInstructionCore i = .error e) :
    s.onInstruction i idx = .error e := by
  unfold TrustedWorktop.onInstruction
  rw [h]

/-- Claim C6: a ReturnToWorktop, CreateProofFromBucketOfAll or
BurnResource instruction processed while the bucket tracker is tracked
but the referenced bucket identifier is absent from its mapping aborts
the analysis with a hard failure: the error propagates through the run
and no verdict is produced for that instruction. -/
theorem missing_bucket_hard_failure (s : TrustedWorktop) (bucket_id idx : Nat)
    (rest : List InstructionV1)
    (hb : s.bucket_tracker.is_untracked_mode = false)
    (hl : s.bucket_tracker.buckets.lookup bucket_id = none) :
    s.onInstruction (.ReturnToWorktop bucket_id) idx = .error .mustSucceed ∧
    s.onInstruction (.CreateProofFromBucketOfAll bucket_id) idx = .error .bucketNotFound ∧
    s.onInstruction (.BurnResource bucket_id) idx = .error .bucketNotFound ∧
    TrustedWorktop.runTW (.ReturnToWorktop bucket_id :: rest) s = .error .mustSucceed := by
  have hb2 : s.bucket_tracker.untracked_mode = false := hb
  have hbc : s.bucket_tracker.bucket_consumed bucket_id =
      (.error .notFound, s.bucket_tracker) := by
    unfold BucketTracker.bucket_consumed
    rw [hb2]
    simp [hl]
  have hret : s.onInstructionCore (.ReturnToWorktop bucket_id) = .error .mustSucceed := by
    simp only [TrustedWorktop.onInstructionCore, hb, Bool.not_false, hbc]
    rfl
  have hall : s.onInstructionCore (.CreateProofFromBucketOfAll bucket_id) =
      .error .bucketNotFound := by
    simp only [TrustedWorktop.onInstructionCore, hb, Bool.not_false, hbc]
    rfl
  have hburn : s.onInstructionCore (.BurnResource bucket_id) = .error .bucketNotFound := by
    simp only [TrustedWorktop.onInstructionCore, hb, Bool.not_false, hbc]
    rfl
  refine ⟨TrustedWorktop.onInstruction_error _ idx s _ hret,
    TrustedWorktop.onInstruction_error _ idx s _ hall,
    TrustedWorktop.onInstruction_error _ idx s _ hburn, ?_⟩
  rw [TrustedWorktop.runTW_cons, TrustedWorktop.onInstruction_error _ _ s _ hret]

theorem missing_bucket_hard_failure_witness :
    TrustedWorktop.initial.onInstruction (.ReturnToWorktop 0) 0 = .error .mustSucceed :=
  (missing_bucket_hard_failure TrustedWorktop.initial 0 0 [] (by rfl) (by rfl)).1

/-! ### Support lemmas for the take-all instruction -/

theorem lookup_append_right {β : Type} (l1 l2 : List (Nat × β)) (k : Nat)
    (h : l1.lookup k = none) : (l1 ++ l2).lookup k = l2.lookup k := by
  induction l1 with
  | nil => rfl
  | cons p rest ih =>
    obtain ⟨k1, b1⟩ := p
    by_cases hk : k = k1
    · subst hk
      simp [List.lookup] at h
    · simp only [List.cons_append, List.lookup, beq_false_of_ne hk] at h ⊢
      exact ih h

theorem mergeSpecifiers_address (e1 e2 r : ResourceSpecifier)
    (h : mergeSpecifiers e1 e2 = some r) : r.address = e1.address := by
  cases e1 <;> cases e2 <;> simp only [mergeSpecifiers] at h <;>
    (try split at h) <;> (cases h) <;> rfl

theorem foldlM_mergeSpecifiers_address (l : List ResourceSpecifier) :
    ∀ (acc m : ResourceSpecifier), List.foldlM mergeSpecifiers acc l = some m →
      m.address = acc.address := by
  induction l with
  | nil => intro acc m h; cases h; rfl
  | cons e rest ih =>
    intro acc m h
    rw [List.foldlM_cons] at h
    cases hm : mergeSpecifiers acc e with
    | none => rw [hm] at h; cases h
    | some acc2 =>
      rw [hm] at h
      simp only [Option.bind_eq_bind, Option.some_bind] at h
      rw [ih acc2 m h, mergeSpecifiers_address acc e acc2 hm]

theorem mergeEntries_address (l : List ResourceSpecifier) (a : Nat) (m : ResourceSpecifier)
    (h : mergeEntries (entriesFor l a) = some m) : m.address = a := by
  cases hl : entriesFor l a with
  | nil => rw [hl] at h; cases h
  | cons e rest =>
    rw [hl] at h
    simp only [mergeEntries] at h
    have hmem : e ∈ entriesFor l a := by rw [hl]; exact List.mem_cons_self e rest
    have he : e.address = a := by
      have := List.of_mem_filter hmem
      simpa using this
    rw [← he]
    exact foldlM_mergeSpecifiers_address rest e m h

theorem entriesFor_filter_out (l : List ResourceSpecifier) (a : Nat) :
    entriesFor (l.filter (fun e => !(e.address == a))) a = [] := by
  unfold entriesFor
  rw [List.filter_filter]
  have : (fun e : ResourceSpecifier => (e.address == a) && !(e.address == a)) =
      fun _ => false := by
    funext e
    cases h : (e.address == a) <;> rfl
  rw [this]
  simp

theorem entriesFor_append (l1 l2 : List ResourceSpecifier) (a : Nat) :
    entriesFor (l1 ++ l2) a = entriesFor l1 a ++ entriesFor l2 a := by
  unfold entriesFor
  exact List.filter_append l1 l2

theorem entriesFor_singleton_self (m : ResourceSpecifier) (a : Nat) (h : m.address = a) :
    entriesFor [m] a = [m] := by
  simp [entriesFor, h]

theorem mergeEntries_singleton (m : ResourceSpecifier) : mergeEntries [m] = some m := rfl

/-- The merged known pooled quantity a tracked worktop holds for one
resource address. -/
def worktopQuantity (t : WorktopContentTracker) (a : Nat) : Option ResourceSpecifier :=
  mergeEntries (entriesFor t.worktop_content a)

theorem TrustedWorktop.onInstructionCore_take_all (s : TrustedWorktop) (a : Nat)
    (m : ResourceSpecifier)
    (hw : s.worktop_content_tracker.is_untracked_mode = false)
    (hm : mergeEntries (entriesFor s.worktop_content_tracker.worktop_content a) = some m) :
    s.onInstructionCore (.TakeAllFromWorktop a) =
      .ok (({ s with
          worktop_content_tracker := { s.worktop_content_tracker with
            worktop_content := (s.worktop_content_tracker.worktop_content.filter
              (fun e => !(e.address == a))) },
          bucket_tracker := s.bucket_tracker.new_bucket_known_resources m
        }).add_new_instruction true (some m)) := by
  have hw2 : s.worktop_content_tracker.untracked_mode = false := hw
  have htake : s.worktop_content_tracker.take_from_worktop_by_address a =
      (some m, { s.worktop_content_tracker with
        worktop_content := (s.worktop_content_tracker.worktop_content.filter
          (fun e => !(e.address == a))) }) := by
    unfold WorktopContentTracker.take_from_worktop_by_address
    rw [hw2, hm]
    simp [hw2]
  simp only [TrustedWorktop.onInstructionCore, hw, Bool.not_false, htake]
  rfl

theorem TrustedWorktop.onInstructionCore_return_known (s : TrustedWorktop) (id : Nat)
    (m : ResourceSpecifier)
    (hw : s.worktop_content_tracker.is_untracked_mode = false)
    (hb : s.bucket_tracker.is_untracked_mode = false)
    (hl : s.bucket_tracker.buckets.lookup id = some (some m)) :
    s.onInstructionCore (.ReturnToWorktop id) =
      .ok { (({ s with bucket_tracker := { s.bucket_tracker with
            buckets := (s.bucket_tracker.buckets.filter (fun p => !(p.1 == id))) }
          }).add_new_instruction true (some m)) with
        worktop_content_tracker := { s.worktop_content_tracker with
          worktop_content := (s.worktop_content_tracker.worktop_content ++ [m]) } } := by
  have hw2 : s.worktop_content_tracker.untracked_mode = false := hw
  have hb2 : s.bucket_tracker.untracked_mode = false := hb
  have hbc : s.bucket_tracker.bucket_consumed id =
      (.ok (some m), { s.bucket_tracker with
        buckets := (s.bucket_tracker.buckets.filter (fun p => !(p.1 == id))) }) := by
    unfold BucketTracker.bucket_consumed
    rw [hb2, hl]
    simp [hb2]
  simp only [TrustedWorktop.onInstructionCore, hb, Bool.not_false, hbc]
  simp [TrustedWorktop.add_new_instruction, WorktopContentTracker.is_untracked_mode, hw2,
    WorktopContentTracker.put_to_worktop]

/-! ### Claim C5 -/

/-- Claim C5 counterexample: from the fresh analyzer state, whose
worktop tracker is tracked with an empty pool, a TakeAllFromWorktop
instruction does not record a trusted verdict: the tracker method
take_from_worktop_by_address returns no specifier and the dispatcher
expectation fails, aborting the analysis. -/
theorem take_all_empty_pool_aborts :
    TrustedWorktop.initial.worktop_content_tracker.is_untracked_mode = false ∧
    TrustedWorktop.runTW [.TakeAllFromWorktop 0] TrustedWorktop.initial =
      .error .expectedResources :=
  ⟨rfl, rfl⟩

/-- Claim C5 (amended): for a TakeAllFromWorktop instruction processed
while the worktop tracker is tracked, when the pool holds an entry for
the resource address (its entries merging to a specifier m) the
dispatcher pops that exact quantity, registers a new known bucket
holding it, and records a trusted verdict with that specifier; when the
tracked pool holds no entry for the address,
take_from_worktop_by_address returns no specifier and the dispatcher
expectation fails, aborting the analysis. -/
theorem take_all_tracked_behavior (s : TrustedWorktop) (a : Nat) (m : ResourceSpecifier)
    (hw : s.worktop_content_tracker.is_untracked_mode = false) :
    (mergeEntries (entriesFor s.worktop_content_tracker.worktop_content a) = some m →
      s.onInstruction (.TakeAllFromWorktop a) s.trusted_state_per_instruction.length =
        .ok (({ s with
            worktop_content_tracker := { s.worktop_content_tracker with
              worktop_content := (s.worktop_content_tracker.worktop_content.filter
                (fun e => !(e.address == a))) },
            bucket_tracker := s.bucket_tracker.new_bucket_known_resources m
          }).add_new_instruction true (some m))) ∧
    (entriesFor s.worktop_content_tracker.worktop_content a = [] →
      s.onInstruction (.TakeAllFromWorktop a) s.trusted_state_per_instruction.length =
        .error .expectedResources) := by
  constructor
  · intro hm
    exact TrustedWorktop.onInstruction_aligned _ s _
      (TrustedWorktop.onInstructionCore_take_all s a m hw hm)
  · intro hnil
    have hw2 : s.worktop_content_tracker.untracked_mode = false := hw
    have htake : s.worktop_content_tracker.take_from_worktop_by_address a =
        (none, s.worktop_content_tracker) := by
      unfold WorktopContentTracker.take_from_worktop_by_address
      rw [hw2, hnil]
      rfl
    apply TrustedWorktop.onInstruction_aligned_error
    simp only [TrustedWorktop.onInstructionCore, hw, Bool.not_false, htake]
    simp

/-- A tracked analyzer state whose worktop pool holds 10 units of the
fungible resource 5. -/
def statePoolAmount : TrustedWorktop :=
  { trusted_state_per_instruction := []
    bucket_tracker := { buckets := [], next_bucket_id := 0, untracked_mode := false }
    worktop_content_tracker :=
      { worktop_content := [.Amount 5 10], untracked_mode := false } }

theorem take_all_tracked_behavior_witness :
    statePoolAmount.onInstruction (.TakeAllFromWorktop 5)
        statePoolAmount.trusted_state_per_instruction.length =
      .ok (({ statePoolAmount with
          worktop_content_tracker := { statePoolAmount.worktop_content_tracker with
            worktop_content := (statePoolAmount.worktop_content_tracker.worktop_content.filter
              (fun e => !(e.address == 5))) },
          bucket_tracker := statePoolAmount.bucket_tracker.new_bucket_known_resources
            (.Amount 5 10)
        }).add_new_instruction true (some (.Amount 5 10))) :=
  (take_all_tracked_behavior statePoolAmount 5 (.Amount 5 10) (by rfl)).1 (by rfl)

/-! ### Claim C7 -/

/-- Claim C7: for a resource address a and a tracked analyzer state
whose worktop pool holds an entry for a (entries merging to the
specifier m), with the bucket tracker tracked and its next bucket
identifier fresh, a TakeAllFromWorktop instruction immediately followed
by ReturnToWorktop on the resulting bucket leaves the worktop tracked
quantity for a equal to its original value, and the return instruction
verdict is trusted and carries exactly the taken specifier. -/
theorem take_all_return_round_trip (s : TrustedWorktop) (a : Nat) (m : ResourceSpecifier)
    (hw : s.worktop_content_tracker.is_untracked_mode = false)
    (hb : s.bucket_tracker.is_untracked_mode = false)
    (hfresh : s.bucket_tracker.buckets.lookup s.bucket_tracker.next_bucket_id = none)
    (hm : worktopQuantity s.worktop_content_tracker a = some m) :
    (TrustedWorktop.runTW
        [.TakeAllFromWorktop a, .ReturnToWorktop s.bucket_tracker.next_bucket_id] s).map
      (fun t => worktopQuantity t.worktop_content_tracker a) =
      .ok (worktopQuantity s.worktop_content_tracker a) ∧
    (TrustedWorktop.runTW
        [.TakeAllFromWorktop a, .ReturnToWorktop s.bucket_tracker.next_bucket_id] s).map
      (fun t => t.trusted_state_per_instruction.getLast?) =
      .ok (some { trusted := true, resources := [m] }) := by
  have hb2 : s.bucket_tracker.untracked_mode = false := hb
  have hma : m.address = a := mergeEntries_address _ a m hm
  have hnb : s.bucket_tracker.new_bucket_known_resources m =
      { s.bucket_tracker with
        buckets := (s.bucket_tracker.buckets ++
          [(s.bucket_tracker.next_bucket_id, some m)]),
        next_bucket_id := (s.bucket_tracker.next_bucket_id + 1) } := by
    unfold BucketTracker.new_bucket_known_resources
    rw [hb2]
    simp [hb2]
  have hstep1 : s.onInstruction (.TakeAllFromWorktop a)
      s.trusted_state_per_instruction.length =
      .ok (({ s with
          worktop_content_tracker := { s.worktop_content_tracker with
            worktop_content := (s.worktop_content_tracker.worktop_content.filter
              (fun e => !(e.address == a))) },
          bucket_tracker := { s.bucket_tracker with
            buckets := (s.bucket_tracker.buckets ++
              [(s.bucket_tracker.next_bucket_id, some m)]),
            next_bucket_id := (s.bucket_tracker.next_bucket_id + 1) }
        }).add_new_instruction true (some m)) := by
    rw [TrustedWorktop.onInstruction_aligned _ s _
      (TrustedWorktop.onInstructionCore_take_all s a m hw hm), hnb]
  have hl1 : (({ s with
      worktop_content_tracker := { s.worktop_content_tracker with
        worktop_content := (s.worktop_content_tracker.worktop_content.filter
          (fun e => !(e.address == a))) },
      bucket_tracker := { s.bucket_tracker with
        buckets := (s.bucket_tracker.buckets ++
          [(s.bucket_tracker.next_bucket_id, some m)]),
        next_bucket_id := (s.bucket_tracker.next_bucket_id + 1) }
    }).add_new_instruction true
      (some m)).bucket_tracker.buckets.lookup s.bucket_tracker.next_bucket_id =
      some (some m) := by
    show (s.bucket_tracker.buckets ++
      [(s.bucket_tracker.next_bucket_id, some m)]).lookup
        s.bucket_tracker.next_bucket_id = some (some m)
    rw [lookup_append_right _ _ _ hfresh]
    simp [List.lookup]
  have hstep2 := TrustedWorktop.onInstruction_aligned _ _ _
    (TrustedWorktop.onInstructionCore_return_known
      (({ s with
          worktop_content_tracker := { s.worktop_content_tracker with
            worktop_content := (s.worktop_content_tracker.worktop_content.filter
              (fun e => !(e.address == a))) },
          bucket_tracker := { s.bucket_tracker with
            buckets := (s.bucket_tracker.buckets ++
              [(s.bucket_tracker.next_bucket_id, some m)]),
            next_bucket_id := (s.bucket_tracker.next_bucket_id + 1) }
        }).add_new_instruction true (some m))
      s.bucket_tracker.next_bucket_id m hw hb hl1)
  have hrun : TrustedWorktop.runTW
      [.TakeAllFromWorktop a, .ReturnToWorktop s.bucket_tracker.next_bucket_id] s =
      .ok { ((({ s with
          worktop_content_tracker := { s.worktop_content_tracker with
            worktop_content := (s.worktop_content_tracker.worktop_content.filter
              (fun e => !(e.address == a))) },
          bucket_tracker := { s.bucket_tracker with
            buckets := ((s.bucket_tracker.buckets ++
              [(s.bucket_tracker.next_bucket_id, some m)]).filter
                (fun p => !(p.1 == s.bucket_tracker.next_bucket_id))),
            next_bucket_id := (s.bucket_tracker.next_bucket_id + 1) }
        }).add_new_instruction true (some m)).add_new_instruction true (some m)) with
        worktop_content_tracker := { s.worktop_content_tracker with
          worktop_content := ((s.worktop_content_tracker.worktop_content.filter
            (fun e => !(e.address == a))) ++ [m]) } } := by
    rw [TrustedWorktop.runTW_cons, hstep1]
    dsimp only
    rw [TrustedWorktop.runTW_cons, hstep2]
    rfl
  rw [hrun]
  constructor
  · show Except.ok (worktopQuantity { s.worktop_content_tracker with
        worktop_content := ((s.worktop_content_tracker.worktop_content.filter
          (fun e => !(e.address == a))) ++ [m]) } a) =
      Except.ok (worktopQuantity s.worktop_content_tracker a)
    rw [hm]
    unfold worktopQuantity
    show Except.ok (mergeEntries (entriesFor ((s.worktop_content_tracker.worktop_content.filter
      (fun e => !(e.address == a))) ++ [m]) a)) = _
    rw [entriesFor_append, entriesFor_filter_out, entriesFor_singleton_self m a hma]
    rfl
  · show Except.ok _ = _
    simp [TrustedWorktop.add_new_instruction, List.getLast?_concat]

theorem take_all_return_round_trip_witness :
    (TrustedWorktop.runTW [.TakeAllFromWorktop 5,
        .ReturnToWorktop statePoolAmount.bucket_tracker.next_bucket_id] statePoolAmount).map
      (fun t => worktopQuantity t.worktop_content_tracker 5) =
      .ok (worktopQuantity statePoolAmount.worktop_content_tracker 5) ∧
    (TrustedWorktop.runTW [.TakeAllFromWorktop 5,
        .ReturnToWorktop statePoolAmount.bucket_tracker.next_bucket_id] statePoolAmount).map
      (fun t => t.trusted_state_per_instruction.getLast?) =
      .ok (some { trusted := true, resources := [ResourceSpecifier.Amount 5 10] }) :=
  take_all_return_round_trip statePoolAmount 5 (.Amount 5 10)
    (by rfl) (by rfl) (by rfl) (by rfl)
